import Mathlib

/-!
Shallow embedding of `AP_MotorsHeli_RSC.cpp` (ArduPilot helicopter rotor
speed controller, fork frizensami/ardupilot).

Modelling conventions:
* C++ `float` values are modelled as `ℚ` (exact rational arithmetic).
* `int16_t` configuration fields (`_ramp_time`, `_runup_time`,
  `_governor_rpm_setpoint`, `_governor_rpm_deadband`, `_pwm_min`,
  `_pwm_max`, `_pwm_rev`) are modelled as `ℤ`; `uint16_t _power_slewrate`
  as `ℕ`; the `uint64_t` microsecond timestamp as `ℕ` (with truncated
  subtraction, as for unsigned C arithmetic).
* The external PID collaborator (`_pid_rotor_gov`, out of scope of the
  controller core) is modelled abstractly: `set_input_filter_all` stores
  the input fed to it and `get_pid` is an arbitrary function of that
  stored input.
* The impure reads (`AP_HAL::micros64()`, the hardware channel write) are
  modelled by an explicit `now` argument and an `Option ℤ` PWM result.
-/

/-- Abstract model of the external `AC_PID` collaborator: `input` is the
last value passed to `set_input_filter_all`, `output` is what `get_pid`
returns as a function of that input. -/
structure PIDModel where
  input : ℚ
  output : ℚ → ℚ

/-- Model of `AC_PID::set_input_filter_all`. -/
def set_input_filter_all (p : PIDModel) (x : ℚ) : PIDModel :=
  { p with input := x }

/-- Model of `AC_PID::get_pid`. -/
def get_pid (p : PIDModel) : ℚ :=
  p.output p.input

/-- The per-tick rotor command `RotorControlState`. -/
inductive RotorControlState where
  | stop
  | idle
  | active
deriving DecidableEq

/-- The configured control strategy `RotorControlMode`. -/
inductive RotorControlMode where
  | disabled
  | speed_passthrough
  | speed_setpoint
  | open_loop_power_output
  | governor
deriving DecidableEq

/-- The controller instance: configuration plus mutable running state of
`AP_MotorsHeli_RSC`. -/
structure RSCState where
  power_output_low : ℚ
  power_output_high : ℚ
  power_output_negc : ℚ
  power_slewrate : ℕ
  idle_output : ℚ
  desired_speed : ℚ
  ramp_time : ℤ
  runup_time : ℤ
  critical_speed : ℚ
  pwm_min : ℤ
  pwm_max : ℤ
  pwm_rev : ℤ
  gov_enabled : Bool
  governor_rpm_setpoint : ℤ
  governor_rpm_deadband : ℤ
  control_mode : RotorControlMode
  load_feedforward : ℚ
  rpm_feedback : ℚ
  pid_rotor_gov : Option PIDModel
  control_output : ℚ
  rotor_ramp_output : ℚ
  rotor_runup_output : ℚ
  runup_complete : Bool
  last_update_us : ℕ

/-- ArduPilot `constrain_float`. -/
def constrain_float (v lo hi : ℚ) : ℚ :=
  if v < lo then lo else if v > hi then hi else v

/-- Embedding of `AP_MotorsHeli_RSC::set_power_output_range`. -/
def set_power_output_range (s : RSCState) (power_low power_high power_negc : ℚ)
    (slewrate : ℕ) : RSCState :=
  { s with power_output_low := power_low, power_output_high := power_high,
           power_output_negc := power_negc, power_slewrate := slewrate }

/-- Embedding of `AP_MotorsHeli_RSC::set_gov_enable`. -/
def set_gov_enable (s : RSCState) (enabled : Bool) (rpm deadband : ℤ)
    (rpm_feedback : ℚ) : RSCState :=
  { s with gov_enabled := enabled, governor_rpm_setpoint := rpm,
           governor_rpm_deadband := deadband, rpm_feedback := rpm_feedback }

/-- Embedding of `AP_MotorsHeli_RSC::update_rotor_ramp`. -/
def update_rotor_ramp (s : RSCState) (rotor_ramp_input dt : ℚ) : RSCState :=
  let rt : ℤ := if s.ramp_time ≤ 0 then 1 else s.ramp_time
  let newRamp : ℚ :=
    if s.rotor_ramp_output < rotor_ramp_input then
      let r0 := if s.rotor_ramp_output < s.rotor_runup_output then
                  s.rotor_runup_output
                else s.rotor_ramp_output
      let r1 := r0 + dt / (rt : ℚ)
      if r1 > rotor_ramp_input then rotor_ramp_input else r1
    else rotor_ramp_input
  { s with ramp_time := rt, rotor_ramp_output := newRamp }

/-- Embedding of `AP_MotorsHeli_RSC::update_rotor_runup`. -/
def update_rotor_runup (s : RSCState) (dt : ℚ) : RSCState :=
  let rt0 : ℤ := if s.runup_time < s.ramp_time then s.ramp_time else s.runup_time
  let rt : ℤ := if rt0 ≤ 0 then 1 else rt0
  let runup_increment : ℚ := dt / (rt : ℚ)
  let ru : ℚ :=
    if s.rotor_runup_output < s.rotor_ramp_output then
      (if s.rotor_runup_output + runup_increment > s.rotor_ramp_output then
        s.rotor_ramp_output
      else s.rotor_runup_output + runup_increment)
    else
      (if s.rotor_runup_output - runup_increment < s.rotor_ramp_output then
        s.rotor_ramp_output
      else s.rotor_runup_output - runup_increment)
  let complete : Bool :=
    if s.control_mode = RotorControlMode.disabled then
      true
    else
      let c1 := if s.runup_complete = false ∧ 1 ≤ s.rotor_ramp_output ∧ 1 ≤ ru then
                  true
                else s.runup_complete
      if c1 = true ∧ ru ≤ s.critical_speed then false else c1
  { s with runup_time := rt, rotor_runup_output := ru, runup_complete := complete }

/-- Embedding of `AP_MotorsHeli_RSC::get_rotor_speed`. -/
def get_rotor_speed (s : RSCState) : ℚ :=
  s.rotor_runup_output

/-- Embedding of `AP_MotorsHeli_RSC::calc_open_loop_power_control_output`. -/
def calc_open_loop_power_control_output (s : RSCState) : ℚ :=
  if 0 ≤ s.load_feedforward then
    s.idle_output + (s.rotor_ramp_output *
      ((s.power_output_low - s.idle_output) +
        ((s.power_output_high - s.power_output_low) * s.load_feedforward)))
  else
    s.idle_output + (s.rotor_ramp_output *
      ((s.power_output_low - s.idle_output) -
        ((s.power_output_negc - s.power_output_low) * s.load_feedforward)))

/-- Embedding of `AP_MotorsHeli_RSC::calc_closed_loop_power_control_output`: returns the
control value together with the (possibly updated) PID collaborator. -/
def calc_closed_loop_power_control_output (s : RSCState) : ℚ × Option PIDModel :=
  match s.pid_rotor_gov with
  | none => (calc_open_loop_power_control_output s, none)
  | some pid =>
    let target_rpm : ℚ := s.rotor_ramp_output * (s.governor_rpm_setpoint : ℚ)
    let pid_input : ℚ := (target_rpm - s.rpm_feedback) / 100
    if s.gov_enabled = true then
      let p := set_input_filter_all pid pid_input
      (constrain_float (get_pid p) 0 1, some p)
    else
      (constrain_float 0 0 1, some (set_input_filter_all pid 0))

/-- Embedding of `AP_MotorsHeli_RSC::write_rsc`: returns the PWM value forwarded to
`SRV_Channels::set_output_pwm`, or `none` when the mode is disabled and
no write happens.  The float-to-`uint16_t` conversion is modelled by
`Int.floor` followed by reduction mod 2^16. -/
def write_rsc (s : RSCState) (servo_out : ℚ) : Option ℤ :=
  if s.control_mode = RotorControlMode.disabled then
    none
  else
    let pwm : ℤ := (⌊servo_out * ((s.pwm_max - s.pwm_min : ℤ) : ℚ)⌋) % 65536
    if 0 ≤ s.pwm_rev then
      some ((s.pwm_min + pwm) % 65536)
    else
      some ((s.pwm_max - pwm) % 65536)

/-- Elapsed time `dt` as computed at the top of `AP_MotorsHeli_RSC::output` from the
current time `now` (microseconds) and the stored timestamp. -/
def compute_dt (s : RSCState) (now : ℕ) : ℚ :=
  if s.last_update_us = 0 then 1 / 1000
  else ((now - s.last_update_us : ℕ) : ℚ) / 1000000

/-- The `ROTOR_CONTROL_ACTIVE` mode-dispatch arm of
`AP_MotorsHeli_RSC::output`, applied to the state `t` after the ramp
update; `last` is the snapshot of `_control_output` from the top of the
call. -/
def active_branch (t : RSCState) (last : ℚ) : RSCState :=
  if t.control_mode = RotorControlMode.speed_passthrough ∨
     t.control_mode = RotorControlMode.speed_setpoint then
    { t with control_output :=
        t.idle_output + (t.rotor_ramp_output * (t.desired_speed - t.idle_output)) }
  else if t.control_mode = RotorControlMode.open_loop_power_output then
    { t with control_output := calc_open_loop_power_control_output t }
  else if t.control_mode = RotorControlMode.governor then
    (if t.gov_enabled = false then
      { t with control_output :=
          t.idle_output + (t.rotor_ramp_output * (t.desired_speed - t.idle_output)) }
    else if |((t.governor_rpm_setpoint : ℚ)) - t.rpm_feedback| <
        (t.governor_rpm_deadband : ℚ) then
      { t with control_output := last }
    else
      { t with control_output := (calc_closed_loop_power_control_output t).1,
               pid_rotor_gov := (calc_closed_loop_power_control_output t).2 })
  else
    t

/-- The slew-rate clamp at the end of `AP_MotorsHeli_RSC::output`. -/
def apply_slew (s : RSCState) (last dt : ℚ) : RSCState :=
  if 0 < s.power_slewrate then
    let max_delta : ℚ := dt * (s.power_slewrate : ℚ) * (1 / 100)
    { s with control_output :=
        constrain_float s.control_output (last - max_delta) (last + max_delta) }
  else
    s

/-- Embedding of `AP_MotorsHeli_RSC::output`: one full control tick.  `now` is the
value read from `AP_HAL::micros64()`.  Returns the new controller state
and the PWM write performed (or `none` if the mode is disabled). -/
def output (s : RSCState) (state : RotorControlState) (now : ℕ) :
    RSCState × Option ℤ :=
  let last_control_output := s.control_output
  let dt := compute_dt s now
  let s1 : RSCState := { s with last_update_us := now }
  let s2 : RSCState :=
    match state with
    | RotorControlState.stop =>
      { (update_rotor_ramp s1 0 dt) with control_output := 0 }
    | RotorControlState.idle =>
      let t := update_rotor_ramp s1 0 dt
      { t with control_output := t.idle_output }
    | RotorControlState.active =>
      active_branch (update_rotor_ramp s1 1 dt) last_control_output
  let s3 := update_rotor_runup s2 dt
  let s4 := apply_slew s3 last_control_output dt
  (s4, write_rsc s4 s4.control_output)

/-- Runs `n` repeated `ROTOR_CONTROL_ACTIVE` ticks, each `δ` microseconds
after the previous stored timestamp. -/
def activeTicks (δ : ℕ) : ℕ → RSCState → RSCState
  | 0, s => s
  | Nat.succ n, s =>
    activeTicks δ n (output s RotorControlState.active (s.last_update_us + δ)).1

/-- The post-move run-up value, as a standalone function (for stating
equations about `update_rotor_runup`). -/
def runup_move (s : RSCState) (dt : ℚ) : ℚ :=
  let rt0 : ℤ := if s.runup_time < s.ramp_time then s.ramp_time else s.runup_time
  let rt : ℤ := if rt0 ≤ 0 then 1 else rt0
  let runup_increment : ℚ := dt / (rt : ℚ)
  if s.rotor_runup_output < s.rotor_ramp_output then
    (if s.rotor_runup_output + runup_increment > s.rotor_ramp_output then
      s.rotor_ramp_output
    else s.rotor_runup_output + runup_increment)
  else
    (if s.rotor_runup_output - runup_increment < s.rotor_ramp_output then
      s.rotor_ramp_output
    else s.rotor_runup_output - runup_increment)

/-- The state after the command-state dispatch inside
`AP_MotorsHeli_RSC::output` (the `switch (state)` block), before the
run-up update and the slew-rate clamp. -/
def tick_mid (s : RSCState) (state : RotorControlState) (now : ℕ) : RSCState :=
  match state with
  | RotorControlState.stop =>
    { (update_rotor_ramp { s with last_update_us := now } 0 (compute_dt s now)) with
        control_output := 0 }
  | RotorControlState.idle =>
    { (update_rotor_ramp { s with last_update_us := now } 0 (compute_dt s now)) with
        control_output := s.idle_output }
  | RotorControlState.active =>
    active_branch (update_rotor_ramp { s with last_update_us := now } 1 (compute_dt s now))
      s.control_output

/-! ### Concrete controller states used for witnesses and counterexamples -/

/-- A benign fully-concrete controller state: passthrough mode, sensible
PWM range, everything else at rest. -/
def baseState : RSCState :=
  { power_output_low := 0, power_output_high := 1, power_output_negc := 1,
    power_slewrate := 0, idle_output := 0, desired_speed := 1,
    ramp_time := 2, runup_time := 4, critical_speed := 1/2,
    pwm_min := 1000, pwm_max := 2000, pwm_rev := 1,
    gov_enabled := false, governor_rpm_setpoint := 1500,
    governor_rpm_deadband := 25,
    control_mode := RotorControlMode.speed_passthrough,
    load_feedforward := 0, rpm_feedback := 0, pid_rotor_gov := none,
    control_output := 0, rotor_ramp_output := 0, rotor_runup_output := 0,
    runup_complete := false, last_update_us := 0 }

/-- An out-of-range configuration: `idle_output = 2` while the running
state is inside `[0,1]`. -/
def oorIdleState : RSCState :=
  { baseState with idle_output := 2, control_output := 1/2 }

/-- Same out-of-range `idle_output`, used to drive the PWM mapping out of
`[pwm_min, pwm_max]`. -/
def oorPwmState : RSCState :=
  { baseState with idle_output := 2 }

/-- A state with a positive slew-rate limit and a high previous control
output. -/
def slewStopState : RSCState :=
  { baseState with power_slewrate := 100, control_output := 1 }

/-- Governor mode, governor enabled, RPM feedback inside the deadband of
the setpoint. -/
def govHoldState : RSCState :=
  { baseState with
    control_mode := RotorControlMode.governor,
    gov_enabled := true, control_output := 1/2, rpm_feedback := 1495 }

/-- Disabled control mode with a nonzero stored control output. -/
def disabledState : RSCState :=
  { baseState with
    control_mode := RotorControlMode.disabled, control_output := 3/10 }

/-- Run-up completed, both ramps at full speed. -/
def hysteresisState : RSCState :=
  { baseState with
    runup_complete := true, rotor_ramp_output := 1, rotor_runup_output := 1 }

/-- A configuration with `critical_speed = 1`. -/
def criticalOneState : RSCState :=
  { baseState with critical_speed := 1 }

/-- A PID collaborator whose `get_pid` always answers `3`. -/
def pidTriple : PIDModel :=
  { input := 0, output := fun _ => 3 }

/-- Governor mode with an attached PID, governor enabled. -/
def pidOnState : RSCState :=
  { baseState with
    control_mode := RotorControlMode.governor,
    gov_enabled := true, pid_rotor_gov := some pidTriple }

/-- Governor mode with an attached PID, governor disabled. -/
def pidOffState : RSCState :=
  { baseState with
    control_mode := RotorControlMode.governor,
    gov_enabled := false, pid_rotor_gov := some pidTriple }

/-- A state at rest with an initialised timestamp, for the ramp-sequence
scenario. -/
def rampStartState : RSCState :=
  { baseState with last_update_us := 1000000 }

/-! ### Frame lemmas: which fields each operation leaves untouched -/

@[simp] theorem update_rotor_ramp_control_output (s : RSCState) (i dt : ℚ) :
    (update_rotor_ramp s i dt).control_output = s.control_output := rfl

@[simp] theorem update_rotor_ramp_runup_output (s : RSCState) (i dt : ℚ) :
    (update_rotor_ramp s i dt).rotor_runup_output = s.rotor_runup_output := rfl

@[simp] theorem update_rotor_ramp_runup_time (s : RSCState) (i dt : ℚ) :
    (update_rotor_ramp s i dt).runup_time = s.runup_time := rfl

@[simp] theorem update_rotor_ramp_mode (s : RSCState) (i dt : ℚ) :
    (update_rotor_ramp s i dt).control_mode = s.control_mode := rfl

@[simp] theorem update_rotor_ramp_critical (s : RSCState) (i dt : ℚ) :
    (update_rotor_ramp s i dt).critical_speed = s.critical_speed := rfl

@[simp] theorem update_rotor_ramp_complete (s : RSCState) (i dt : ℚ) :
    (update_rotor_ramp s i dt).runup_complete = s.runup_complete := rfl

@[simp] theorem update_rotor_ramp_slewrate (s : RSCState) (i dt : ℚ) :
    (update_rotor_ramp s i dt).power_slewrate = s.power_slewrate := rfl

@[simp] theorem update_rotor_ramp_idle (s : RSCState) (i dt : ℚ) :
    (update_rotor_ramp s i dt).idle_output = s.idle_output := rfl

@[simp] theorem update_rotor_ramp_last_us (s : RSCState) (i dt : ℚ) :
    (update_rotor_ramp s i dt).last_update_us = s.last_update_us := rfl

theorem update_rotor_ramp_ramp_time_def (s : RSCState) (i dt : ℚ) :
    (update_rotor_ramp s i dt).ramp_time =
      (if s.ramp_time ≤ 0 then 1 else s.ramp_time) := rfl

theorem update_rotor_ramp_ramp_def (s : RSCState) (i dt : ℚ) :
    (update_rotor_ramp s i dt).rotor_ramp_output =
      if s.rotor_ramp_output < i then
        (if ((if s.rotor_ramp_output < s.rotor_runup_output then
                s.rotor_runup_output
              else s.rotor_ramp_output) +
              dt / (((if s.ramp_time ≤ 0 then 1 else s.ramp_time) : ℤ) : ℚ)) > i then
          i
        else
          ((if s.rotor_ramp_output < s.rotor_runup_output then
              s.rotor_runup_output
            else s.rotor_ramp_output) +
            dt / (((if s.ramp_time ≤ 0 then 1 else s.ramp_time) : ℤ) : ℚ)))
      else i := rfl

@[simp] theorem update_rotor_runup_control_output (s : RSCState) (dt : ℚ) :
    (update_rotor_runup s dt).control_output = s.control_output := rfl

@[simp] theorem update_rotor_runup_ramp_output (s : RSCState) (dt : ℚ) :
    (update_rotor_runup s dt).rotor_ramp_output = s.rotor_ramp_output := rfl

@[simp] theorem update_rotor_runup_ramp_time (s : RSCState) (dt : ℚ) :
    (update_rotor_runup s dt).ramp_time = s.ramp_time := rfl

@[simp] theorem update_rotor_runup_mode (s : RSCState) (dt : ℚ) :
    (update_rotor_runup s dt).control_mode = s.control_mode := rfl

@[simp] theorem update_rotor_runup_critical (s : RSCState) (dt : ℚ) :
    (update_rotor_runup s dt).critical_speed = s.critical_speed := rfl

@[simp] theorem update_rotor_runup_slewrate (s : RSCState) (dt : ℚ) :
    (update_rotor_runup s dt).power_slewrate = s.power_slewrate := rfl

@[simp] theorem update_rotor_runup_last_us (s : RSCState) (dt : ℚ) :
    (update_rotor_runup s dt).last_update_us = s.last_update_us := rfl

theorem update_rotor_runup_runup_time_def (s : RSCState) (dt : ℚ) :
    (update_rotor_runup s dt).runup_time =
      (if (if s.runup_time < s.ramp_time then s.ramp_time else s.runup_time) ≤ 0
       then 1
       else (if s.runup_time < s.ramp_time then s.ramp_time else s.runup_time)) := rfl

theorem update_rotor_runup_runup_def (s : RSCState) (dt : ℚ) :
    (update_rotor_runup s dt).rotor_runup_output = runup_move s dt := rfl

theorem update_rotor_runup_complete_def (s : RSCState) (dt : ℚ) :
    (update_rotor_runup s dt).runup_complete =
      (if s.control_mode = RotorControlMode.disabled then
        true
      else
        (if (if s.runup_complete = false ∧ 1 ≤ s.rotor_ramp_output ∧
                1 ≤ runup_move s dt then
              true
            else s.runup_complete) = true ∧
            runup_move s dt ≤ s.critical_speed then
          false
        else
          (if s.runup_complete = false ∧ 1 ≤ s.rotor_ramp_output ∧
              1 ≤ runup_move s dt then
            true
          else s.runup_complete))) := rfl

theorem active_branch_ramp_output (t : RSCState) (last : ℚ) :
    (active_branch t last).rotor_ramp_output = t.rotor_ramp_output := by
  unfold active_branch
  split_ifs <;> rfl

theorem active_branch_runup_output (t : RSCState) (last : ℚ) :
    (active_branch t last).rotor_runup_output = t.rotor_runup_output := by
  unfold active_branch
  split_ifs <;> rfl

theorem active_branch_ramp_time (t : RSCState) (last : ℚ) :
    (active_branch t last).ramp_time = t.ramp_time := by
  unfold active_branch
  split_ifs <;> rfl

theorem active_branch_runup_time (t : RSCState) (last : ℚ) :
    (active_branch t last).runup_time = t.runup_time := by
  unfold active_branch
  split_ifs <;> rfl

theorem active_branch_mode (t : RSCState) (last : ℚ) :
    (active_branch t last).control_mode = t.control_mode := by
  unfold active_branch
  split_ifs <;> rfl

theorem active_branch_critical (t : RSCState) (last : ℚ) :
    (active_branch t last).critical_speed = t.critical_speed := by
  unfold active_branch
  split_ifs <;> rfl

theorem active_branch_complete (t : RSCState) (last : ℚ) :
    (active_branch t last).runup_complete = t.runup_complete := by
  unfold active_branch
  split_ifs <;> rfl

theorem active_branch_slewrate (t : RSCState) (last : ℚ) :
    (active_branch t last).power_slewrate = t.power_slewrate := by
  unfold active_branch
  split_ifs <;> rfl

theorem active_branch_last_us (t : RSCState) (last : ℚ) :
    (active_branch t last).last_update_us = t.last_update_us := by
  unfold active_branch
  split_ifs <;> rfl

theorem apply_slew_ramp_output (s : RSCState) (last dt : ℚ) :
    (apply_slew s last dt).rotor_ramp_output = s.rotor_ramp_output := by
  unfold apply_slew
  split_ifs <;> rfl

theorem apply_slew_runup_output (s : RSCState) (last dt : ℚ) :
    (apply_slew s last dt).rotor_runup_output = s.rotor_runup_output := by
  unfold apply_slew
  split_ifs <;> rfl

theorem apply_slew_ramp_time (s : RSCState) (last dt : ℚ) :
    (apply_slew s last dt).ramp_time = s.ramp_time := by
  unfold apply_slew
  split_ifs <;> rfl

theorem apply_slew_runup_time (s : RSCState) (last dt : ℚ) :
    (apply_slew s last dt).runup_time = s.runup_time := by
  unfold apply_slew
  split_ifs <;> rfl

theorem apply_slew_mode (s : RSCState) (last dt : ℚ) :
    (apply_slew s last dt).control_mode = s.control_mode := by
  unfold apply_slew
  split_ifs <;> rfl

theorem apply_slew_complete (s : RSCState) (last dt : ℚ) :
    (apply_slew s last dt).runup_complete = s.runup_complete := by
  unfold apply_slew
  split_ifs <;> rfl

theorem apply_slew_last_us (s : RSCState) (last dt : ℚ) :
    (apply_slew s last dt).last_update_us = s.last_update_us := by
  unfold apply_slew
  split_ifs <;> rfl

theorem apply_slew_critical (s : RSCState) (last dt : ℚ) :
    (apply_slew s last dt).critical_speed = s.critical_speed := by
  unfold apply_slew
  split_ifs <;> rfl

/-! ### Basic arithmetic facts about the embedded operations -/

theorem compute_dt_nonneg (s : RSCState) (now : ℕ) : 0 ≤ compute_dt s now := by
  unfold compute_dt
  split_ifs
  · norm_num
  · positivity

theorem constrain_float_mem (v lo hi : ℚ) (h : lo ≤ hi) :
    lo ≤ constrain_float v lo hi ∧ constrain_float v lo hi ≤ hi := by
  unfold constrain_float
  split_ifs <;> constructor <;> linarith

theorem constrain_float_eq_self (v lo hi : ℚ) (h1 : lo ≤ v) (h2 : v ≤ hi) :
    constrain_float v lo hi = v := by
  unfold constrain_float
  split_ifs <;> linarith

theorem update_rotor_ramp_ramp_time_ge_one (s : RSCState) (i dt : ℚ) :
    1 ≤ (update_rotor_ramp s i dt).ramp_time := by
  rw [update_rotor_ramp_ramp_time_def]
  split_ifs with h <;> omega

/-- After the ramp update, the ramp output stays in `[0,1]` provided the
two ramp fields were in `[0,1]`, the target is in `[0,1]` and `dt ≥ 0`. -/
theorem update_rotor_ramp_mem_unit (s : RSCState) (i dt : ℚ)
    (hdt : 0 ≤ dt) (hi0 : 0 ≤ i) (hi1 : i ≤ 1)
    (hr0 : 0 ≤ s.rotor_ramp_output) (hr1 : s.rotor_ramp_output ≤ 1)
    (hu0 : 0 ≤ s.rotor_runup_output) (hu1 : s.rotor_runup_output ≤ 1) :
    0 ≤ (update_rotor_ramp s i dt).rotor_ramp_output ∧
      (update_rotor_ramp s i dt).rotor_ramp_output ≤ 1 := by
  rw [update_rotor_ramp_ramp_def]
  set rt : ℤ := if s.ramp_time ≤ 0 then 1 else s.ramp_time with hrt
  have hq : (0 : ℚ) < (rt : ℚ) := by
    have : (0 : ℤ) < rt := by
      rw [hrt]; split_ifs with h <;> omega
    exact_mod_cast this
  have hdiv : 0 ≤ dt / (rt : ℚ) := div_nonneg hdt (le_of_lt hq)
  split_ifs <;> constructor <;> linarith

/-- The ramp update never moves the ramp output down below the target:
the new ramp output is at least `min` of target and old ramp output; in
particular with target `1` it is monotone upward. -/
theorem update_rotor_ramp_ramp_mono_one (s : RSCState) (dt : ℚ)
    (hdt : 0 ≤ dt) (hr1 : s.rotor_ramp_output ≤ 1) :
    s.rotor_ramp_output ≤ (update_rotor_ramp s 1 dt).rotor_ramp_output := by
  rw [update_rotor_ramp_ramp_def]
  set rt : ℤ := if s.ramp_time ≤ 0 then 1 else s.ramp_time with hrt
  have hq : (0 : ℚ) < (rt : ℚ) := by
    have : (0 : ℤ) < rt := by
      rw [hrt]; split_ifs with h <;> omega
    exact_mod_cast this
  have hdiv : 0 ≤ dt / (rt : ℚ) := div_nonneg hdt (le_of_lt hq)
  split_ifs <;> linarith

/-! ### Decomposition of `output` into its stages -/

theorem output_fst (s : RSCState) (st : RotorControlState) (now : ℕ) :
    (output s st now).1 =
      apply_slew (update_rotor_runup (tick_mid s st now) (compute_dt s now))
        s.control_output (compute_dt s now) := by
  cases st <;> rfl

theorem output_snd (s : RSCState) (st : RotorControlState) (now : ℕ) :
    (output s st now).2 =
      write_rsc (output s st now).1 ((output s st now).1).control_output := by
  cases st <;> rfl

theorem tick_mid_runup_output (s : RSCState) (st : RotorControlState) (now : ℕ) :
    (tick_mid s st now).rotor_runup_output = s.rotor_runup_output := by
  cases st <;> simp [tick_mid, active_branch_runup_output]

theorem tick_mid_ramp_time (s : RSCState) (st : RotorControlState) (now : ℕ) :
    (tick_mid s st now).ramp_time = (if s.ramp_time ≤ 0 then 1 else s.ramp_time) := by
  cases st <;> simp [tick_mid, active_branch_ramp_time, update_rotor_ramp_ramp_time_def]

theorem tick_mid_runup_time (s : RSCState) (st : RotorControlState) (now : ℕ) :
    (tick_mid s st now).runup_time = s.runup_time := by
  cases st <;> simp [tick_mid, active_branch_runup_time]

theorem tick_mid_mode (s : RSCState) (st : RotorControlState) (now : ℕ) :
    (tick_mid s st now).control_mode = s.control_mode := by
  cases st <;> simp [tick_mid, active_branch_mode]

theorem tick_mid_critical (s : RSCState) (st : RotorControlState) (now : ℕ) :
    (tick_mid s st now).critical_speed = s.critical_speed := by
  cases st <;> simp [tick_mid, active_branch_critical]

theorem tick_mid_complete (s : RSCState) (st : RotorControlState) (now : ℕ) :
    (tick_mid s st now).runup_complete = s.runup_complete := by
  cases st <;> simp [tick_mid, active_branch_complete]

theorem tick_mid_slewrate (s : RSCState) (st : RotorControlState) (now : ℕ) :
    (tick_mid s st now).power_slewrate = s.power_slewrate := by
  cases st <;> simp [tick_mid, active_branch_slewrate]

theorem tick_mid_last_us (s : RSCState) (st : RotorControlState) (now : ℕ) :
    (tick_mid s st now).last_update_us = now := by
  cases st <;> simp [tick_mid, active_branch_last_us]

/-! ### Bounds for the run-up move and the coerced ramp output -/

/-- The ramp output never exceeds the ramp target after the update. -/
theorem update_rotor_ramp_le_input (s : RSCState) (i dt : ℚ) :
    (update_rotor_ramp s i dt).rotor_ramp_output ≤ i := by
  rw [update_rotor_ramp_ramp_def]
  split_ifs <;> linarith

theorem runup_move_mem_unit (s : RSCState) (dt : ℚ) (hdt : 0 ≤ dt)
    (hr0 : 0 ≤ s.rotor_ramp_output) (hr1 : s.rotor_ramp_output ≤ 1)
    (hu0 : 0 ≤ s.rotor_runup_output) (hu1 : s.rotor_runup_output ≤ 1) :
    0 ≤ runup_move s dt ∧ runup_move s dt ≤ 1 := by
  unfold runup_move
  dsimp only
  set rt0 : ℤ := if s.runup_time < s.ramp_time then s.ramp_time else s.runup_time
    with hrt0
  set rt : ℤ := if rt0 ≤ 0 then 1 else rt0 with hrt
  have hq : (0 : ℚ) < (rt : ℚ) := by
    have : (0 : ℤ) < rt := by
      rw [hrt]; split_ifs with h <;> omega
    exact_mod_cast this
  have hdiv : 0 ≤ dt / (rt : ℚ) := div_nonneg hdt (le_of_lt hq)
  split_ifs <;> constructor <;> linarith

/-- The run-up move keeps the run-up estimate at most `1` out of a state
whose ramp and run-up outputs are at most `1`. -/
theorem runup_move_le_one (s : RSCState) (dt : ℚ) (hdt : 0 ≤ dt)
    (hr1 : s.rotor_ramp_output ≤ 1) (hu1 : s.rotor_runup_output ≤ 1) :
    runup_move s dt ≤ 1 := by
  unfold runup_move
  dsimp only
  set rt0 : ℤ := if s.runup_time < s.ramp_time then s.ramp_time else s.runup_time
    with hrt0
  set rt : ℤ := if rt0 ≤ 0 then 1 else rt0 with hrt
  have hq : (0 : ℚ) < (rt : ℚ) := by
    have : (0 : ℤ) < rt := by
      rw [hrt]; split_ifs with h <;> omega
    exact_mod_cast this
  have hdiv : 0 ≤ dt / (rt : ℚ) := div_nonneg hdt (le_of_lt hq)
  split_ifs <;> linarith

/-- If the run-up estimate does not exceed the ramp output, it still does
not after the run-up move. -/
theorem runup_move_le_ramp (s : RSCState) (dt : ℚ) (hdt : 0 ≤ dt)
    (h : s.rotor_runup_output ≤ s.rotor_ramp_output) :
    runup_move s dt ≤ s.rotor_ramp_output := by
  unfold runup_move
  dsimp only
  set rt0 : ℤ := if s.runup_time < s.ramp_time then s.ramp_time else s.runup_time
    with hrt0
  set rt : ℤ := if rt0 ≤ 0 then 1 else rt0 with hrt
  have hq : (0 : ℚ) < (rt : ℚ) := by
    have : (0 : ℤ) < rt := by
      rw [hrt]; split_ifs with h <;> omega
    exact_mod_cast this
  have hdiv : 0 ≤ dt / (rt : ℚ) := div_nonneg hdt (le_of_lt hq)
  split_ifs <;> linarith

/-! ### The run-up completion flag -/

theorem update_rotor_runup_complete_disabled (s : RSCState) (dt : ℚ)
    (h : s.control_mode = RotorControlMode.disabled) :
    (update_rotor_runup s dt).runup_complete = true := by
  rw [update_rotor_runup_complete_def, if_pos h]

theorem update_rotor_runup_complete_of_gt (s : RSCState) (dt : ℚ)
    (hmode : s.control_mode ≠ RotorControlMode.disabled)
    (hc : s.runup_complete = true)
    (hgt : s.critical_speed < runup_move s dt) :
    (update_rotor_runup s dt).runup_complete = true := by
  have hnle : ¬ (runup_move s dt ≤ s.critical_speed) := not_le.mpr hgt
  simp [update_rotor_runup_complete_def, hmode, hc, hnle]

theorem update_rotor_runup_complete_false_of_le (s : RSCState) (dt : ℚ)
    (hmode : s.control_mode ≠ RotorControlMode.disabled)
    (hle : runup_move s dt ≤ s.critical_speed) :
    (update_rotor_runup s dt).runup_complete = false := by
  rw [update_rotor_runup_complete_def, if_neg hmode]
  cases hcpre : s.runup_complete <;> simp [hcpre, hle]
  intro h h1
  rcases h with h | h
  · linarith
  · exact h

/-! ### The slew-rate clamp on the control output -/

theorem apply_slew_control_eq_last (s : RSCState) (last dt : ℚ)
    (h : s.control_output = last) (hdt : 0 ≤ dt) :
    (apply_slew s last dt).control_output = last := by
  unfold apply_slew
  split_ifs with hs
  · have hd : 0 ≤ dt * (s.power_slewrate : ℚ) * (1 / 100) := by positivity
    show constrain_float s.control_output _ _ = last
    rw [h]
    exact constrain_float_eq_self _ _ _ (by linarith) (by linarith)
  · exact h

theorem apply_slew_control_of_no_slew (s : RSCState) (last dt : ℚ)
    (h : s.power_slewrate = 0) :
    (apply_slew s last dt).control_output = s.control_output := by
  unfold apply_slew
  rw [if_neg]
  rw [h]
  exact lt_irrefl 0

/-! ### More frame equations and branch computations -/

theorem update_rotor_ramp_gov_enabled (s : RSCState) (i dt : ℚ) :
    (update_rotor_ramp s i dt).gov_enabled = s.gov_enabled := rfl

theorem update_rotor_ramp_setpoint (s : RSCState) (i dt : ℚ) :
    (update_rotor_ramp s i dt).governor_rpm_setpoint = s.governor_rpm_setpoint := rfl

theorem update_rotor_ramp_deadband (s : RSCState) (i dt : ℚ) :
    (update_rotor_ramp s i dt).governor_rpm_deadband = s.governor_rpm_deadband := rfl

theorem update_rotor_ramp_rpm_feedback (s : RSCState) (i dt : ℚ) :
    (update_rotor_ramp s i dt).rpm_feedback = s.rpm_feedback := rfl

theorem tick_mid_ramp_stop (s : RSCState) (now : ℕ) :
    (tick_mid s RotorControlState.stop now).rotor_ramp_output =
      (update_rotor_ramp { s with last_update_us := now } 0
        (compute_dt s now)).rotor_ramp_output := rfl

theorem tick_mid_ramp_idle (s : RSCState) (now : ℕ) :
    (tick_mid s RotorControlState.idle now).rotor_ramp_output =
      (update_rotor_ramp { s with last_update_us := now } 0
        (compute_dt s now)).rotor_ramp_output := rfl

theorem tick_mid_ramp_active (s : RSCState) (now : ℕ) :
    (tick_mid s RotorControlState.active now).rotor_ramp_output =
      (update_rotor_ramp { s with last_update_us := now } 1
        (compute_dt s now)).rotor_ramp_output :=
  active_branch_ramp_output _ _

theorem tick_mid_control_stop (s : RSCState) (now : ℕ) :
    (tick_mid s RotorControlState.stop now).control_output = 0 := rfl

theorem tick_mid_control_idle (s : RSCState) (now : ℕ) :
    (tick_mid s RotorControlState.idle now).control_output = s.idle_output := rfl

/-- With a disabled control mode, no arm of the `ROTOR_CONTROL_ACTIVE`
dispatch matches, so the state passes through unchanged. -/
theorem active_branch_disabled (t : RSCState) (last : ℚ)
    (h : t.control_mode = RotorControlMode.disabled) :
    active_branch t last = t := by
  simp [active_branch, h]

/-- Governor mode, governor enabled, feedback within the deadband: the
dispatch stores the snapshot `last` back into the control output. -/
theorem active_branch_control_deadband (t : RSCState) (last : ℚ)
    (hm : t.control_mode = RotorControlMode.governor)
    (hg : t.gov_enabled = true)
    (hdb : |((t.governor_rpm_setpoint : ℚ)) - t.rpm_feedback| <
      (t.governor_rpm_deadband : ℚ)) :
    (active_branch t last).control_output = last := by
  simp [active_branch, hm, hg, hdb]

theorem write_rsc_def (s : RSCState) (v : ℚ) :
    write_rsc s v =
      (if s.control_mode = RotorControlMode.disabled then none
       else if 0 ≤ s.pwm_rev then
        some ((s.pwm_min + (⌊v * ((s.pwm_max - s.pwm_min : ℤ) : ℚ)⌋ % 65536)) % 65536)
       else
        some ((s.pwm_max - (⌊v * ((s.pwm_max - s.pwm_min : ℤ) : ℚ)⌋ % 65536)) % 65536)) :=
  rfl

theorem write_rsc_disabled (s : RSCState) (v : ℚ)
    (h : s.control_mode = RotorControlMode.disabled) :
    write_rsc s v = none := by
  rw [write_rsc_def, if_pos h]

/-! ### Claim theorems -/

/-- C6: on every tick, before the stored `ramp_time` and `runup_time`
values are used as divisors they are coerced so that `ramp_time ≥ 1`,
`runup_time ≥ 1` and `runup_time ≥ ramp_time`; in particular no tick
divides by zero or by a negative time, for any configured values. (The
coerced values are exactly the stored fields after `output` returns.) -/
theorem rsc_times_coerced_each_tick (s : RSCState) (st : RotorControlState)
    (now : ℕ) :
    1 ≤ (output s st now).1.ramp_time ∧
      1 ≤ (output s st now).1.runup_time ∧
      (output s st now).1.ramp_time ≤ (output s st now).1.runup_time := by
  rw [output_fst, apply_slew_ramp_time, apply_slew_runup_time,
      update_rotor_runup_ramp_time, update_rotor_runup_runup_time_def,
      tick_mid_ramp_time, tick_mid_runup_time]
  split_ifs <;> omega

/-- C3 counterexample: with a positive slew-rate limit (`100`), a previous
control output of `1` and bootstrap `dt = 1 ms`, a `Stop` tick leaves
`control_output = 999/1000 ≠ 0`: the slew clamp runs after the `Stop` arm
forces zero, so the claim as stated fails. -/
theorem rsc_stop_slew_counterexample :
    (output slewStopState RotorControlState.stop 5).1.control_output = 999 / 1000 ∧
      (output slewStopState RotorControlState.stop 5).1.control_output ≠ 0 := by
  norm_num [output, tick_mid, active_branch, update_rotor_ramp, update_rotor_runup,
    apply_slew, constrain_float, compute_dt, slewStopState, baseState]

/-- C3 (amended): a single `output(Stop)` call leaves `control_output`
exactly `0` for every prior state and configuration with no slew-rate
limit configured (`power_slewrate = 0`); with a positive slew rate the
zero command is still subject to the final slew clamp. -/
theorem rsc_stop_forces_zero_without_slew (s : RSCState) (now : ℕ)
    (hslew : s.power_slewrate = 0) :
    (output s RotorControlState.stop now).1.control_output = 0 := by
  rw [output_fst,
      apply_slew_control_of_no_slew _ _ _
        (by rw [update_rotor_runup_slewrate, tick_mid_slewrate]; exact hslew),
      update_rotor_runup_control_output, tick_mid_control_stop]

/-- Witness for C3 (amended) at `baseState` (slew rate `0`). -/
theorem rsc_stop_forces_zero_without_slew_witness :
    baseState.power_slewrate = 0 ∧
      (output baseState RotorControlState.stop 5).1.control_output = 0 :=
  ⟨rfl, rsc_stop_forces_zero_without_slew baseState 5 rfl⟩

/-- C9: in every control mode other than disabled, if `critical_speed ≥ 1`
then `runup_complete` is false after every `output` call (from a state
whose run-up estimate is within its invariant range `≤ 1`): the
critical-speed check, which runs after the both-ramps-at-target check in
the same call, always clears the flag again. -/
theorem rsc_critical_ge_one_blocks_runup_complete (s : RSCState)
    (st : RotorControlState) (now : ℕ)
    (hm : s.control_mode ≠ RotorControlMode.disabled)
    (hcrit : 1 ≤ s.critical_speed)
    (hu1 : s.rotor_runup_output ≤ 1) :
    (output s st now).1.runup_complete = false := by
  rw [output_fst, apply_slew_complete]
  apply update_rotor_runup_complete_false_of_le
  · rw [tick_mid_mode]; exact hm
  · rw [tick_mid_critical]
    have h1 : (tick_mid s st now).rotor_ramp_output ≤ 1 := by
      cases st
      · rw [tick_mid_ramp_stop]
        exact le_trans (update_rotor_ramp_le_input _ _ _) (by norm_num)
      · rw [tick_mid_ramp_idle]
        exact le_trans (update_rotor_ramp_le_input _ _ _) (by norm_num)
      · rw [tick_mid_ramp_active]
        exact update_rotor_ramp_le_input _ _ _
    have h2 : (tick_mid s st now).rotor_runup_output ≤ 1 := by
      rw [tick_mid_runup_output]; exact hu1
    exact le_trans
      (runup_move_le_one _ _ (compute_dt_nonneg s now) h1 h2) hcrit

/-- Witness for C9: `critical_speed = 1`, passthrough mode, run-up at 0. -/
theorem rsc_critical_ge_one_blocks_runup_complete_witness :
    criticalOneState.control_mode ≠ RotorControlMode.disabled ∧
      (1 : ℚ) ≤ criticalOneState.critical_speed ∧
      criticalOneState.rotor_runup_output ≤ 1 ∧
      (output criticalOneState RotorControlState.active 3).1.runup_complete = false :=
  ⟨by decide, by norm_num [criticalOneState, baseState], by
    norm_num [criticalOneState, baseState],
    rsc_critical_ge_one_blocks_runup_complete criticalOneState
      RotorControlState.active 3 (by decide)
      (by norm_num [criticalOneState, baseState])
      (by norm_num [criticalOneState, baseState])⟩

/-- C5: run-up completion hysteresis.  Once `runup_complete` is true, a
tick in a mode other than disabled keeps it true as long as the rotor
speed estimate stays above `critical_speed` after the tick (even if the
ramp outputs dropped below 1); and the configuration setters
`set_gov_enable` and `set_power_output_range` never change
`runup_complete`. -/
theorem rsc_runup_complete_hysteresis (s : RSCState) (st : RotorControlState)
    (now : ℕ) (e : Bool) (rpm deadband : ℤ)
    (fb power_low power_high power_negc : ℚ) (slewrate : ℕ) :
    (s.runup_complete = true →
      s.control_mode ≠ RotorControlMode.disabled →
      s.critical_speed < (output s st now).1.rotor_runup_output →
      (output s st now).1.runup_complete = true) ∧
    (set_gov_enable s e rpm deadband fb).runup_complete = s.runup_complete ∧
    (set_power_output_range s power_low power_high power_negc
      slewrate).runup_complete = s.runup_complete := by
  refine ⟨?_, rfl, rfl⟩
  intro hc hm hgt
  rw [output_fst, apply_slew_complete]
  apply update_rotor_runup_complete_of_gt
  · rw [tick_mid_mode]; exact hm
  · rw [tick_mid_complete]; exact hc
  · rw [tick_mid_critical]
    rw [output_fst, apply_slew_runup_output, update_rotor_runup_runup_def] at hgt
    exact hgt

/-- Witness for C5: completed run-up at full speed stays completed through
an `Active` tick, and `set_gov_enable` leaves the flag alone. -/
theorem rsc_runup_complete_hysteresis_witness :
    (output hysteresisState RotorControlState.active 13).1.runup_complete = true ∧
      (set_gov_enable hysteresisState true 1000 10 0).runup_complete =
        hysteresisState.runup_complete :=
  ⟨(rsc_runup_complete_hysteresis hysteresisState RotorControlState.active 13
      true 1000 10 0 0 0 0 0).1 rfl (by decide)
      (by norm_num [output, tick_mid, active_branch, update_rotor_ramp,
        update_rotor_runup, runup_move, apply_slew, constrain_float, compute_dt,
        hysteresisState, baseState]),
   (rsc_runup_complete_hysteresis hysteresisState RotorControlState.active 13
      true 1000 10 0 0 0 0 0).2.1⟩

/-- C10: with a disabled control mode, an `output(Active)` call leaves
`control_output` unchanged (no dispatch arm assigns it, and the slew clamp
centred on the previous value is the identity), still updates the ramp and
run-up estimators, sets `runup_complete` and the stored timestamp, and
performs no hardware write. -/
theorem rsc_disabled_active_no_control_effect (s : RSCState) (now : ℕ)
    (hm : s.control_mode = RotorControlMode.disabled) :
    (output s RotorControlState.active now).1.control_output = s.control_output ∧
      (output s RotorControlState.active now).2 = none ∧
      (output s RotorControlState.active now).1.runup_complete = true ∧
      (output s RotorControlState.active now).1.last_update_us = now ∧
      (output s RotorControlState.active now).1.rotor_ramp_output =
        (update_rotor_ramp { s with last_update_us := now } 1
          (compute_dt s now)).rotor_ramp_output ∧
      (output s RotorControlState.active now).1.rotor_runup_output =
        runup_move (tick_mid s RotorControlState.active now) (compute_dt s now) := by
  have hmid : (tick_mid s RotorControlState.active now).control_output =
      s.control_output := by
    show (active_branch (update_rotor_ramp { s with last_update_us := now } 1
      (compute_dt s now)) s.control_output).control_output = s.control_output
    rw [active_branch_disabled
      (update_rotor_ramp { s with last_update_us := now } 1 (compute_dt s now))
      s.control_output (by rw [update_rotor_ramp_mode]; exact hm)]
    rfl
  refine ⟨?_, ?_, ?_, ?_, ?_, ?_⟩
  · rw [output_fst]
    apply apply_slew_control_eq_last
    · rw [update_rotor_runup_control_output]; exact hmid
    · exact compute_dt_nonneg s now
  · rw [output_snd]
    apply write_rsc_disabled
    rw [output_fst, apply_slew_mode, update_rotor_runup_mode, tick_mid_mode]
    exact hm
  · rw [output_fst, apply_slew_complete]
    apply update_rotor_runup_complete_disabled
    rw [tick_mid_mode]; exact hm
  · rw [output_fst, apply_slew_last_us, update_rotor_runup_last_us,
        tick_mid_last_us]
  · rw [output_fst, apply_slew_ramp_output, update_rotor_runup_ramp_output,
        tick_mid_ramp_active]
  · rw [output_fst, apply_slew_runup_output, update_rotor_runup_runup_def]

/-- Witness for C10 at `disabledState` (stored control output `3/10`). -/
theorem rsc_disabled_active_no_control_effect_witness :
    (output disabledState RotorControlState.active 7).1.control_output = 3 / 10 ∧
      (output disabledState RotorControlState.active 7).2 = none ∧
      (output disabledState RotorControlState.active 7).1.runup_complete = true :=
  ⟨(rsc_disabled_active_no_control_effect disabledState 7 rfl).1,
   (rsc_disabled_active_no_control_effect disabledState 7 rfl).2.1,
   (rsc_disabled_active_no_control_effect disabledState 7 rfl).2.2.1⟩

/-- C4: in governor mode with the governor enabled and
`|governor_rpm_setpoint − rpm_feedback| < governor_rpm_deadband`, an
`output(Active)` tick leaves `control_output` exactly equal to its value
before the call, for every PID state — including after the slew-rate
stage, whose clamp is centred on that previous value. -/
theorem rsc_governor_deadband_hold (s : RSCState) (now : ℕ)
    (hm : s.control_mode = RotorControlMode.governor)
    (hg : s.gov_enabled = true)
    (hdb : |((s.governor_rpm_setpoint : ℚ)) - s.rpm_feedback| <
      (s.governor_rpm_deadband : ℚ)) :
    (output s RotorControlState.active now).1.control_output =
      s.control_output := by
  rw [output_fst]
  apply apply_slew_control_eq_last
  · rw [update_rotor_runup_control_output]
    show (active_branch (update_rotor_ramp { s with last_update_us := now } 1
      (compute_dt s now)) s.control_output).control_output = s.control_output
    exact active_branch_control_deadband _ _ hm hg hdb
  · exact compute_dt_nonneg s now

/-- Witness for C4: setpoint 1500, feedback 1495, deadband 25, previous
control output `1/2` is held exactly. -/
theorem rsc_governor_deadband_hold_witness :
    |((govHoldState.governor_rpm_setpoint : ℚ)) - govHoldState.rpm_feedback| <
        (govHoldState.governor_rpm_deadband : ℚ) ∧
      (output govHoldState RotorControlState.active 11).1.control_output = 1 / 2 :=
  ⟨by norm_num [govHoldState, baseState],
   rsc_governor_deadband_hold govHoldState 11 rfl rfl
     (by norm_num [govHoldState, baseState])⟩

/-- C1 counterexample: with configuration `idle_output = 2` (and no slew
limit), from a state whose three running fields all lie in `[0,1]`, an
`Idle` tick leaves `control_output = 2 > 1`: the claim as stated fails
for out-of-range configuration values. -/
theorem rsc_unit_interval_counterexample :
    (0 ≤ oorIdleState.rotor_ramp_output ∧ oorIdleState.rotor_ramp_output ≤ 1 ∧
      0 ≤ oorIdleState.rotor_runup_output ∧ oorIdleState.rotor_runup_output ≤ 1 ∧
      0 ≤ oorIdleState.control_output ∧ oorIdleState.control_output ≤ 1) ∧
    ¬ ((output oorIdleState RotorControlState.idle 5).1.control_output ≤ 1) := by
  constructor
  · norm_num [oorIdleState, baseState]
  · norm_num [output, tick_mid, active_branch, update_rotor_ramp,
      update_rotor_runup, apply_slew, constrain_float, compute_dt,
      oorIdleState, baseState]

/-- C1 (amended): after every `output` tick, `rotor_ramp_output` and
`rotor_runup_output` lie in `[0,1]` whenever they did before the call,
whatever the command state, control mode and configuration;
`control_output` is not so bounded in general (it follows unclamped
configuration values such as `idle_output`). -/
theorem rsc_ramp_runup_stay_in_unit_interval (s : RSCState)
    (st : RotorControlState) (now : ℕ)
    (hr0 : 0 ≤ s.rotor_ramp_output) (hr1 : s.rotor_ramp_output ≤ 1)
    (hu0 : 0 ≤ s.rotor_runup_output) (hu1 : s.rotor_runup_output ≤ 1) :
    0 ≤ (output s st now).1.rotor_ramp_output ∧
      (output s st now).1.rotor_ramp_output ≤ 1 ∧
      0 ≤ (output s st now).1.rotor_runup_output ∧
      (output s st now).1.rotor_runup_output ≤ 1 := by
  have hdt := compute_dt_nonneg s now
  have hmid : 0 ≤ (tick_mid s st now).rotor_ramp_output ∧
      (tick_mid s st now).rotor_ramp_output ≤ 1 := by
    cases st
    · rw [tick_mid_ramp_stop]
      exact update_rotor_ramp_mem_unit _ 0 _ hdt le_rfl zero_le_one hr0 hr1 hu0 hu1
    · rw [tick_mid_ramp_idle]
      exact update_rotor_ramp_mem_unit _ 0 _ hdt le_rfl zero_le_one hr0 hr1 hu0 hu1
    · rw [tick_mid_ramp_active]
      exact update_rotor_ramp_mem_unit _ 1 _ hdt zero_le_one le_rfl hr0 hr1 hu0 hu1
  have hmove := runup_move_mem_unit (tick_mid s st now) (compute_dt s now) hdt
    hmid.1 hmid.2
    (by rw [tick_mid_runup_output]; exact hu0)
    (by rw [tick_mid_runup_output]; exact hu1)
  refine ⟨?_, ?_, ?_, ?_⟩ <;> rw [output_fst]
  · rw [apply_slew_ramp_output, update_rotor_runup_ramp_output]; exact hmid.1
  · rw [apply_slew_ramp_output, update_rotor_runup_ramp_output]; exact hmid.2
  · rw [apply_slew_runup_output, update_rotor_runup_runup_def]; exact hmove.1
  · rw [apply_slew_runup_output, update_rotor_runup_runup_def]; exact hmove.2

/-- Witness for C1 (amended) at `baseState` under an `Active` tick. -/
theorem rsc_ramp_runup_stay_in_unit_interval_witness :
    0 ≤ (output baseState RotorControlState.active 3).1.rotor_ramp_output ∧
      (output baseState RotorControlState.active 3).1.rotor_ramp_output ≤ 1 ∧
      0 ≤ (output baseState RotorControlState.active 3).1.rotor_runup_output ∧
      (output baseState RotorControlState.active 3).1.rotor_runup_output ≤ 1 :=
  rsc_ramp_runup_stay_in_unit_interval baseState RotorControlState.active 3
    (by norm_num [baseState]) (by norm_num [baseState])
    (by norm_num [baseState]) (by norm_num [baseState])

/-- C2 counterexample: with `idle_output = 2` (passthrough mode, PWM range
`[1000, 2000]`, positive polarity, no slew limit), an `Idle` tick passes
`2 ∉ [0,1]` to the PWM mapping and forwards PWM `3000 > pwm_max`: neither
part of the claim holds for out-of-range configuration. -/
theorem rsc_pwm_range_counterexample :
    (output oorPwmState RotorControlState.idle 9).1.control_output = 2 ∧
      ¬ ((output oorPwmState RotorControlState.idle 9).1.control_output ≤ 1) ∧
      (output oorPwmState RotorControlState.idle 9).2 = some 3000 ∧
      ¬ ((3000 : ℤ) ≤ oorPwmState.pwm_max) := by
  have h : (output oorPwmState RotorControlState.idle 9).1.control_output = 2 := by
    norm_num [output, tick_mid, active_branch, update_rotor_ramp,
      update_rotor_runup, apply_slew, constrain_float, compute_dt,
      oorPwmState, baseState]
  refine ⟨h, by rw [h]; norm_num, ?_, by norm_num [oorPwmState, baseState]⟩
  rw [output_snd, h]
  rw [write_rsc_def]
  rw [if_neg (by
    rw [output_fst, apply_slew_mode, update_rotor_runup_mode, tick_mid_mode]
    decide)]
  have hmax : (output oorPwmState RotorControlState.idle 9).1.pwm_max = 2000 := by
    rw [output_fst]
    rfl
  have hmin : (output oorPwmState RotorControlState.idle 9).1.pwm_min = 1000 := by
    rw [output_fst]
    rfl
  have hrev : (output oorPwmState RotorControlState.idle 9).1.pwm_rev = 1 := by
    rw [output_fst]
    rfl
  rw [hmax, hmin, hrev]
  norm_num

/-- C2 (amended): whenever the value handed to the PWM mapping lies in
`[0,1]` and the configured PWM endpoints satisfy
`0 ≤ pwm_min ≤ pwm_max < 65536` (as `int16` PWM parameters do), the PWM
value forwarded to the output channel lies within `[pwm_min, pwm_max]`
for either sign of `pwm_rev`; the controller itself, however, does not
clamp every output path to `[0,1]` before the mapping. -/
theorem rsc_write_rsc_pwm_in_range (s : RSCState) (v : ℚ) (p : ℤ)
    (h0 : 0 ≤ v) (h1 : v ≤ 1) (hle : s.pwm_min ≤ s.pwm_max)
    (hmin : 0 ≤ s.pwm_min) (hmax : s.pwm_max < 65536)
    (hw : write_rsc s v = some p) :
    s.pwm_min ≤ p ∧ p ≤ s.pwm_max := by
  have hd0 : (0 : ℤ) ≤ s.pwm_max - s.pwm_min := by omega
  have hf0 : 0 ≤ ⌊v * ((s.pwm_max - s.pwm_min : ℤ) : ℚ)⌋ :=
    Int.floor_nonneg.mpr (mul_nonneg h0 (by exact_mod_cast hd0))
  have hfle : ⌊v * ((s.pwm_max - s.pwm_min : ℤ) : ℚ)⌋ ≤ s.pwm_max - s.pwm_min := by
    have h2 : v * ((s.pwm_max - s.pwm_min : ℤ) : ℚ) ≤
        ((s.pwm_max - s.pwm_min : ℤ) : ℚ) :=
      mul_le_of_le_one_left (by exact_mod_cast hd0) h1
    have h3 := Int.floor_mono h2
    rwa [Int.floor_intCast] at h3
  have hmod : ⌊v * ((s.pwm_max - s.pwm_min : ℤ) : ℚ)⌋ % 65536 =
      ⌊v * ((s.pwm_max - s.pwm_min : ℤ) : ℚ)⌋ :=
    Int.emod_eq_of_lt hf0 (by omega)
  by_cases hdis : s.control_mode = RotorControlMode.disabled
  · rw [write_rsc_disabled s v hdis] at hw
    exact Option.noConfusion hw
  · rw [write_rsc_def, if_neg hdis, hmod] at hw
    split_ifs at hw with hrev
    · have hp := Option.some.inj hw
      omega
    · have hp := Option.some.inj hw
      omega

/-- Witness for C2 (amended): `baseState`, command value `1/2`, forwarded
PWM `1500 ∈ [1000, 2000]`. -/
theorem rsc_write_rsc_pwm_in_range_witness :
    write_rsc baseState (1 / 2) = some 1500 ∧
      baseState.pwm_min ≤ 1500 ∧ (1500 : ℤ) ≤ baseState.pwm_max := by
  have hw : write_rsc baseState (1 / 2) = some 1500 := by
    rw [write_rsc_def]
    rw [if_neg (by decide : ¬ (baseState.control_mode = RotorControlMode.disabled))]
    rw [if_pos (by decide : (0 : ℤ) ≤ baseState.pwm_rev)]
    rw [show ⌊(1 / 2 : ℚ) * ((baseState.pwm_max - baseState.pwm_min : ℤ) : ℚ)⌋ = 500
      by norm_num [baseState]]
    decide
  have h := rsc_write_rsc_pwm_in_range baseState (1 / 2) 1500 (by norm_num)
    (by norm_num) (by decide) (by decide) (by decide) hw
  exact ⟨hw, h.1, h.2⟩

/-- C7: the closed-loop governor calculator.  With no PID attached it
returns exactly the open-loop calculator's result and leaves the (absent)
PID unchanged; with a PID attached and the governor enabled it returns the
PID output for the scaled RPM error, clamped to `[0,1]` and used as-is
(no open-loop feed-forward term added); with a PID attached and the
governor disabled it feeds zero error to the PID and returns `0`. -/
theorem rsc_closed_loop_calculator_spec (s : RSCState) :
    (s.pid_rotor_gov = none →
      calc_closed_loop_power_control_output s =
        (calc_open_loop_power_control_output s, none)) ∧
    (∀ p : PIDModel, s.pid_rotor_gov = some p → s.gov_enabled = true →
      (calc_closed_loop_power_control_output s).1 =
        constrain_float
          (p.output ((s.rotor_ramp_output * (s.governor_rpm_setpoint : ℚ) -
            s.rpm_feedback) / 100)) 0 1 ∧
      0 ≤ (calc_closed_loop_power_control_output s).1 ∧
      (calc_closed_loop_power_control_output s).1 ≤ 1 ∧
      (calc_closed_loop_power_control_output s).2 =
        some (set_input_filter_all p
          ((s.rotor_ramp_output * (s.governor_rpm_setpoint : ℚ) -
            s.rpm_feedback) / 100))) ∧
    (∀ p : PIDModel, s.pid_rotor_gov = some p → s.gov_enabled = false →
      (calc_closed_loop_power_control_output s).1 = 0 ∧
      (calc_closed_loop_power_control_output s).2 =
        some (set_input_filter_all p 0)) := by
  refine ⟨?_, ?_, ?_⟩
  · intro h
    simp [calc_closed_loop_power_control_output, h]
  · intro p hp hg
    simp only [calc_closed_loop_power_control_output, hp, hg, if_pos]
    refine ⟨rfl, ?_, ?_, trivial⟩
    · exact (constrain_float_mem _ 0 1 (by norm_num)).1
    · exact (constrain_float_mem _ 0 1 (by norm_num)).2
  · intro p hp hg
    simp only [calc_closed_loop_power_control_output, hp, hg]
    norm_num [constrain_float]

/-- Witness for C7 at three concrete states: no PID attached, PID attached
with governor enabled (PID answering `3`, clamped to `1`), and PID
attached with governor disabled. -/
theorem rsc_closed_loop_calculator_spec_witness :
    calc_closed_loop_power_control_output baseState =
        (calc_open_loop_power_control_output baseState, none) ∧
      (calc_closed_loop_power_control_output pidOnState).1 = 1 ∧
      (calc_closed_loop_power_control_output pidOffState).1 = 0 := by
  refine ⟨(rsc_closed_loop_calculator_spec baseState).1 rfl, ?_, ?_⟩
  · have h := ((rsc_closed_loop_calculator_spec pidOnState).2.1 pidTriple rfl rfl).1
    rw [h]
    norm_num [pidTriple, constrain_float]
  · exact ((rsc_closed_loop_calculator_spec pidOffState).2.2 pidTriple rfl rfl).1

/-! ### The ramp sequence under repeated Active ticks -/

theorem compute_dt_fixed (s : RSCState) (δ : ℕ) (h : s.last_update_us ≠ 0) :
    compute_dt s (s.last_update_us + δ) = (δ : ℚ) / 1000000 := by
  unfold compute_dt
  rw [if_neg h, Nat.add_sub_cancel_left]

/-- One ramp update toward target `1` from `min 1 q`, with the run-up
estimate not above the ramp, advances the ramp to `min 1 (q + dt/T)`. -/
theorem update_rotor_ramp_one_of_min (u : RSCState) (dt : ℚ) (T : ℤ)
    (hT : 1 ≤ T) (hTime : u.ramp_time = T)
    (hru : u.rotor_runup_output ≤ u.rotor_ramp_output)
    (q : ℚ) (hq : 0 ≤ q) (hr : u.rotor_ramp_output = min 1 q) (hdt : 0 ≤ dt) :
    (update_rotor_ramp u 1 dt).rotor_ramp_output = min 1 (q + dt / (T : ℚ)) := by
  have hTpos : (0 : ℚ) < (T : ℚ) := by exact_mod_cast (by omega : (0 : ℤ) < T)
  have hdiv : 0 ≤ dt / (T : ℚ) := div_nonneg hdt (le_of_lt hTpos)
  have hcoerce : (if u.ramp_time ≤ 0 then 1 else u.ramp_time) = T := by
    rw [hTime, if_neg (by omega : ¬ (T ≤ 0))]
  rw [update_rotor_ramp_ramp_def, hcoerce, if_neg (not_lt.mpr hru), hr]
  rcases lt_or_le q 1 with h1 | h1
  · have hmin : min 1 q = q := min_eq_right h1.le
    rw [hmin, if_pos h1]
    by_cases h2 : q + dt / (T : ℚ) > 1
    · rw [if_pos h2]
      exact (min_eq_left h2.le).symm
    · rw [if_neg h2]
      push_neg at h2
      exact (min_eq_right h2).symm
  · have hmin : min 1 q = 1 := min_eq_left h1
    rw [hmin, if_neg (lt_irrefl 1)]
    exact (min_eq_left (by linarith)).symm

/-- One full `Active` tick: the ramp output advances from `min 1 q` to
`min 1 (q + dt/T)`, the run-up estimate stays below the ramp, and the
ramp time and timestamp are maintained. -/
theorem output_active_step (s : RSCState) (now : ℕ) (T : ℤ) (hT : 1 ≤ T)
    (hTime : s.ramp_time = T)
    (hru : s.rotor_runup_output ≤ s.rotor_ramp_output)
    (q : ℚ) (hq : 0 ≤ q) (hr : s.rotor_ramp_output = min 1 q) :
    (output s RotorControlState.active now).1.rotor_ramp_output =
        min 1 (q + compute_dt s now / (T : ℚ)) ∧
      (output s RotorControlState.active now).1.rotor_runup_output ≤
        (output s RotorControlState.active now).1.rotor_ramp_output ∧
      (output s RotorControlState.active now).1.ramp_time = T ∧
      (output s RotorControlState.active now).1.last_update_us = now := by
  have hdt := compute_dt_nonneg s now
  refine ⟨?_, ?_, ?_, ?_⟩
  · rw [output_fst, apply_slew_ramp_output, update_rotor_runup_ramp_output,
        tick_mid_ramp_active]
    exact update_rotor_ramp_one_of_min _ _ T hT hTime hru q hq hr hdt
  · rw [output_fst, apply_slew_ramp_output, apply_slew_runup_output,
        update_rotor_runup_ramp_output, update_rotor_runup_runup_def]
    have hmr : (tick_mid s RotorControlState.active now).rotor_runup_output ≤
        (tick_mid s RotorControlState.active now).rotor_ramp_output := by
      rw [tick_mid_runup_output, tick_mid_ramp_active]
      exact le_trans hru
        (update_rotor_ramp_ramp_mono_one _ _ hdt
          (by rw [hr]; exact min_le_left _ _))
    exact runup_move_le_ramp _ _ hdt hmr
  · rw [output_fst, apply_slew_ramp_time, update_rotor_runup_ramp_time,
        tick_mid_ramp_time, hTime, if_neg (by omega : ¬ (T ≤ 0))]
  · rw [output_fst, apply_slew_last_us, update_rotor_runup_last_us,
        tick_mid_last_us]

theorem activeTicks_ramp_aux (δ : ℕ) (T : ℤ) (hT : 1 ≤ T) (n : ℕ) :
    ∀ (s : RSCState) (q : ℚ), s.ramp_time = T → s.last_update_us ≠ 0 →
      s.rotor_runup_output ≤ s.rotor_ramp_output → 0 ≤ q →
      s.rotor_ramp_output = min 1 q →
      (activeTicks δ n s).rotor_ramp_output =
        min 1 (q + (n : ℚ) * ((δ : ℚ) / 1000000 / (T : ℚ))) := by
  have hTpos : (0 : ℚ) < (T : ℚ) := by exact_mod_cast (by omega : (0 : ℤ) < T)
  have hdtp : (0 : ℚ) ≤ (δ : ℚ) / 1000000 := by positivity
  induction n with
  | zero =>
    intro s q hTime hlast hru hq hr
    simp [activeTicks, hr]
  | succ n ih =>
    intro s q hTime hlast hru hq hr
    have hstep := output_active_step s (s.last_update_us + δ) T hT hTime hru q hq hr
    rw [compute_dt_fixed s δ hlast] at hstep
    show (activeTicks δ n
      (output s RotorControlState.active (s.last_update_us + δ)).1).rotor_ramp_output = _
    rw [ih (output s RotorControlState.active (s.last_update_us + δ)).1
      (q + (δ : ℚ) / 1000000 / (T : ℚ)) hstep.2.2.1
      (by rw [hstep.2.2.2]; omega) hstep.2.1
      (by have := div_nonneg hdtp (le_of_lt hTpos); linarith) hstep.1]
    congr 1
    push_cast
    ring

/-- C8: starting from `rotor_ramp_output = 0` with the run-up estimate not
above the ramp output, under repeated `Active` ticks with fixed elapsed
time `δ` microseconds and `ramp_time = T ≥ 1`, after `n` ticks the ramp
output equals `min 1 (n·dt/T)` with `dt = δ/10^6` seconds, for every
`n ≥ 0`. -/
theorem rsc_active_ramp_linear (n : ℕ) (s : RSCState) (δ : ℕ) (T : ℤ)
    (hT : 1 ≤ T) (hTime : s.ramp_time = T) (hlast : s.last_update_us ≠ 0)
    (hr : s.rotor_ramp_output = 0)
    (hru : s.rotor_runup_output ≤ s.rotor_ramp_output) :
    (activeTicks δ n s).rotor_ramp_output =
      min 1 ((n : ℚ) * ((δ : ℚ) / 1000000 / (T : ℚ))) := by
  have h := activeTicks_ramp_aux δ T hT n s 0 hTime hlast hru le_rfl
    (by rw [hr]; norm_num)
  rw [h]
  norm_num

/-- Witness for C8: `ramp_time = 2 s`, ticks of `0.5 s`; after three ticks
from rest the ramp output is `3/4`. -/
theorem rsc_active_ramp_linear_witness :
    (activeTicks 500000 3 rampStartState).rotor_ramp_output = 3 / 4 := by
  have h := rsc_active_ramp_linear 3 rampStartState 500000 2 (by omega) rfl
    (by norm_num [rampStartState, baseState]) rfl le_rfl
  rw [h]
  norm_num
